import Mathlib

/-!
Verification of the ReadyNextOsDrive sync orchestration engine
(`src-tauri/src/sync.rs`, `src-tauri/src/watcher.rs`, `src-tauri/src/config.rs`).

External effects (the rclone sidecar, `std::fs::create_dir_all`, the marker
file write, the notify event channel) are modelled as oracle records supplied
to the pure Lean functions; everything the Rust code computes from those
outcomes is translated directly.
-/

namespace ReadyNextOsDrive

/-! ## String helpers (Rust `str::contains`, `str::trim`, `str::is_empty`)

Lean's built-in `String` operations do not reduce in the kernel, so we work on
the underlying character list. -/

/-- Rust `str::starts_with` on character lists. -/
def listIsPre : List Char → List Char → Bool
  | [], _ => true
  | _ :: _, [] => false
  | p :: ps, c :: cs => p == c && listIsPre ps cs

/-- Substring occurrence on character lists. -/
def listSub (pat : List Char) : List Char → Bool
  | [] => pat.isEmpty
  | c :: cs => listIsPre pat (c :: cs) || listSub pat cs

/-- Rust `str::contains(pat)` (case-sensitive substring match). -/
def strContains (s pat : String) : Bool := listSub pat.data s.data

/-- Rust `str::is_empty`. -/
def strIsEmpty (s : String) : Bool := s.data.isEmpty

/-- ASCII whitespace test used by `strTrim`. -/
def isWhite (c : Char) : Bool := c == ' ' || c == '\n' || c == '\t' || c == '\r'

/-- Rust `str::trim`: strip whitespace from both ends. -/
def strTrim (s : String) : String :=
  ⟨((s.data.dropWhile isWhite).reverse.dropWhile isWhite).reverse⟩

/-- Case-insensitive lowering, character by character. -/
def strToLower (s : String) : String := ⟨s.data.map Char.toLower⟩

/-! ## Data model (`config.rs`) -/

/-- Model of `SyncStatus` from `config.rs`. -/
inductive SyncStatus
  | Idle
  | Syncing
  | Conflict
  | Error (msg : String)
  | NotConfigured
deriving DecidableEq

/-- Model of `ActivityEntry` from `config.rs`; the `chrono` timestamp is modelled as a
natural number supplied by the environment. -/
structure ActivityEntry where
  timestamp : Nat
  action : String
  file_path : String
  status : String
  details : Option String
deriving DecidableEq

/-- Model of `AppConfig` from `config.rs`, restricted to the fields `sync_all` reads
(`server_url`, `user_email`, and the two local sync paths); the scheduling
fields (`sync_interval_secs`, …) are never read by the sync engine. -/
structure AppConfig where
  server_url : String
  user_email : String
  personal_sync_path : String
  shared_sync_path : String

/-- Rust `AppConfig::is_configured`: non-empty server URL and user email. -/
def AppConfig.is_configured (c : AppConfig) : Bool :=
  !(strIsEmpty c.server_url) && !(strIsEmpty c.user_email)

/-! ## External process oracle -/

/-- Captured output of a finished sidecar process (exit status, code, stdout,
stderr), as read by `sync.rs`. -/
structure ProcOutput where
  success : Bool
  code : Option Int
  stdout : String
  stderr : String
deriving DecidableEq

/-- Oracle for one rclone sidecar invocation: creating the sidecar command may
fail, and running it may fail before producing any output. -/
structure ToolEnv where
  sidecar : Except String Unit
  run : Except String ProcOutput

/-- Rust `SyncEngine::obscure_password` (`sync.rs` lines 169-184): run
`rclone obscure`, trim its stdout on success, otherwise fail. -/
def obscure_password (env : ToolEnv) : Except String String :=
  match env.sidecar with
  | Except.error e => Except.error ("Failed to create rclone sidecar: " ++ e)
  | Except.ok _ =>
    match env.run with
    | Except.error e => Except.error ("Failed to obscure password: " ++ e)
    | Except.ok o =>
      if o.success then Except.ok (strTrim o.stdout)
      else Except.error "Failed to obscure password"

/-! ## Per-target sync invocation (`SyncEngine::run_bisync`) -/

/-- The mode flag pushed onto the rclone argument list: `--resync` on a first
run, `--recover` otherwise. -/
inductive RunMode
  | resync
  | recover
deriving DecidableEq

/-- Environment of one `run_bisync` call: whether the init marker file
`.readynextos-sync-init` exists in the local directory, the sidecar process
oracle, and whether the best-effort marker write would succeed. -/
structure BisyncEnv where
  markerPresent : Bool
  tool : ToolEnv
  markerWriteOk : Bool

/-- Result of one `run_bisync` call: the returned `Result`, the shared status
slot after the call, the marker file state after the call, and the mode flag
that was passed to rclone. -/
structure BisyncResult where
  result : Except String Unit
  status : SyncStatus
  markerAfter : Bool
  mode : RunMode

/-- Rust `{:?}` rendering of `Option<i32>` used in the synthesized error. -/
def codeText : Option Int → String
  | none => "None"
  | some n => "Some(" ++ toString n ++ ")"

/-- The conflict classification of `sync.rs` line 160:
`error.contains("CONFLICT") || error.contains("conflict")`. -/
def isConflictText (e : String) : Bool :=
  strContains e "CONFLICT" || strContains e "conflict"

/-- The error text of a failed rclone run (`sync.rs` lines 153-157): stderr if
non-empty, otherwise a synthesized exit-code message. -/
def errTextOf (o : ProcOutput) : String :=
  if strIsEmpty o.stderr then "rclone exited with code " ++ codeText o.code
  else o.stderr

/-- Rust `SyncEngine::run_bisync` (`sync.rs` lines 96-166) on the oracle `env`,
with `st` the current contents of the shared status slot. -/
def run_bisync (env : BisyncEnv) (st : SyncStatus) : BisyncResult :=
  let is_first_run := !env.markerPresent
  let mode := if is_first_run then RunMode.resync else RunMode.recover
  match env.tool.sidecar with
  | Except.error e =>
      ⟨Except.error ("Failed to create rclone sidecar: " ++ e), st, env.markerPresent, mode⟩
  | Except.ok _ =>
    match env.tool.run with
    | Except.error e =>
        ⟨Except.error ("Failed to run rclone: " ++ e), st, env.markerPresent, mode⟩
    | Except.ok o =>
      if o.success then
        -- Mark first sync complete (best-effort write).
        let markerAfter := if is_first_run then env.markerWriteOk else env.markerPresent
        ⟨Except.ok (), st, markerAfter, mode⟩
      else
        let error := errTextOf o
        let st' := if isConflictText error then SyncStatus.Conflict else st
        ⟨Except.error error, st', env.markerPresent, mode⟩

/-! ## Activity log (`SyncEngine::log_activity`, `get_activity`) -/

/-- Rust `SyncEngine::log_activity` (`sync.rs` lines 186-203): push the entry, then
drain from the front down to the most recent 1000. -/
def log_activity (log : List ActivityEntry) (ts : Nat)
    (action file_path status : String) (details : Option String) :
    List ActivityEntry :=
  let log := log ++ [⟨ts, action, file_path, status, details⟩]
  if 1000 < log.length then log.drop (log.length - 1000) else log

/-- Rust `SyncEngine::get_activity` (`sync.rs` lines 211-219). -/
def get_activity (log : List ActivityEntry) (limit : Nat) : List ActivityEntry :=
  let start := if limit < log.length then log.length - limit else 0
  log.drop start

/-! ## Engine state and `sync_all` -/

/-- The two lock-protected fields of `SyncEngine`. -/
structure EngineState where
  status : SyncStatus
  activity_log : List ActivityEntry

/-- Rust `SyncEngine::new`. -/
def SyncEngine.new : EngineState := ⟨SyncStatus.NotConfigured, []⟩

/-- Rust `SyncEngine::get_status`. -/
def get_status (s : EngineState) : SyncStatus := s.status

/-- Externally visible effects of one `sync_all` run, in order. -/
inductive Effect
  | createDir (path : String)
  | toolObscure
  | bisyncRun (target : String)
  | logAppend (action status : String)
deriving DecidableEq

/-- Environment of one `sync_all` call: outcomes of the two
`create_dir_all` calls, the obscure invocation, the two per-target bisync
invocations, and the two `Utc::now()` timestamps taken when logging. -/
structure SyncAllEnv where
  mkdirPersonal : Except String Unit
  mkdirShared : Except String Unit
  obscure : ToolEnv
  personal : BisyncEnv
  shared : BisyncEnv
  ts1 : Nat
  ts2 : Nat

/-- Return value, final engine state, and effect trace of one `sync_all`. -/
structure SyncAllOutcome where
  ret : Except String Unit
  state : EngineState
  trace : List Effect

/-- Status tag recorded in the activity entry for one target. -/
def tagFor : Except String Unit → String
  | Except.error _ => "error"
  | Except.ok _ => "success"

/-- Details recorded in the activity entry for one target. -/
def detFor : Except String Unit → Option String
  | Except.error e => some e
  | Except.ok _ => none

/-- The aggregation of `sync.rs` lines 78-89: both `Ok` gives `Idle`,
otherwise `Error` with `personal_result.err().or(shared_result.err())
.unwrap_or_default()`. -/
def aggStatus : Except String Unit → Except String Unit → SyncStatus
  | Except.ok _, Except.ok _ => SyncStatus.Idle
  | r1, r2 =>
      SyncStatus.Error
        (match r1 with
         | Except.error e => e
         | Except.ok _ =>
           match r2 with
           | Except.error e => e
           | Except.ok _ => "")

/-- Rust `SyncEngine::sync_all` (`sync.rs` lines 22-92). -/
def sync_all (cfg : AppConfig) (env : SyncAllEnv) (s : EngineState) :
    SyncAllOutcome :=
  if cfg.is_configured = true then
    let s1 : EngineState := { s with status := SyncStatus.Syncing }
    match env.mkdirPersonal with
    | Except.error e => ⟨Except.error ("Cannot create personal dir: " ++ e), s1, []⟩
    | Except.ok _ =>
      match env.mkdirShared with
      | Except.error e =>
          ⟨Except.error ("Cannot create shared dir: " ++ e), s1,
            [Effect.createDir cfg.personal_sync_path]⟩
      | Except.ok _ =>
        let tr0 : List Effect :=
          [Effect.createDir cfg.personal_sync_path,
           Effect.createDir cfg.shared_sync_path]
        match obscure_password env.obscure with
        | Except.error e => ⟨Except.error e, s1, tr0 ++ [Effect.toolObscure]⟩
        | Except.ok _tok =>
          let r1 := run_bisync env.personal s1.status
          let s2 : EngineState := { s1 with status := r1.status }
          let log1 := log_activity s2.activity_log env.ts1 "sync_personal" "" (tagFor r1.result) (detFor r1.result)
          let s3 : EngineState := { s2 with activity_log := log1 }
          let r2 := run_bisync env.shared s3.status
          let s4 : EngineState := { s3 with status := r2.status }
          let log2 := log_activity s4.activity_log env.ts2 "sync_shared" "" (tagFor r2.result) (detFor r2.result)
          let s5 : EngineState := { s4 with activity_log := log2 }
          let final : EngineState := { s5 with status := aggStatus r1.result r2.result }
          ⟨Except.ok (),
           final,
           tr0 ++ [Effect.toolObscure,
                   Effect.bisyncRun "personal",
                   Effect.logAppend "sync_personal" (tagFor r1.result),
                   Effect.bisyncRun "shared",
                   Effect.logAppend "sync_shared" (tagFor r2.result)]⟩
  else ⟨Except.error "Not configured", s, []⟩

/-! ## File watcher (`watcher.rs`) -/

/-- One message on the notify channel: either a filesystem event (with its
kind, for the debug log) or a watch error. -/
inductive WatchMsg
  | event (kind : String)
  | watchErr (emsg : String)
deriving DecidableEq

/-- Model of `FileWatcher`: `rx` is `none` before `start` and after `stop`; when
present it holds the queued channel messages, oldest first. -/
structure FileWatcher where
  rx : Option (List WatchMsg)

/-- Rust `FileWatcher::new`. -/
def FileWatcher.new : FileWatcher := ⟨none⟩

/-- Rust `FileWatcher::start` (successful case): fresh empty channel. -/
def FileWatcher.start (_w : FileWatcher) : FileWatcher := ⟨some []⟩

/-- Rust `FileWatcher::stop`: drop the watcher and the receiver. -/
def FileWatcher.stop (_w : FileWatcher) : FileWatcher := ⟨none⟩

/-- The notify callback `tx.send(res)`: queue a message if the channel is
alive. -/
def FileWatcher.enqueue (w : FileWatcher) (m : WatchMsg) : FileWatcher :=
  match w.rx with
  | none => w
  | some q => ⟨some (q ++ [m])⟩

/-- Rust `FileWatcher::has_changes` (`watcher.rs` lines 59-74): `try_recv` pops the
head; an `Ok(Ok(event))` head drains the whole queue and returns true; an
`Ok(Err(_))` head falls to the catch-all arm (the error message is already
consumed) and returns false; an empty or absent channel returns false. -/
def FileWatcher.has_changes : FileWatcher → Bool × FileWatcher
  | ⟨none⟩ => (false, ⟨none⟩)
  | ⟨some []⟩ => (false, ⟨some []⟩)
  | ⟨some (WatchMsg.event _ :: _)⟩ => (true, ⟨some []⟩)
  | ⟨some (WatchMsg.watchErr _ :: rest)⟩ => (false, ⟨some rest⟩)

/-! ## Spec-side definitions (for refinement comparison only) -/

/-- Modelled from the spec: the spec's classification rule, a case-insensitive
substring match of the diagnostic text against the word conflict. -/
def specConflictIndicator (e : String) : Bool :=
  strContains (strToLower e) "conflict"

/-! ## Derived views used by the theorems -/

/-- The `Result` of one `run_bisync` call; it does not depend on the incoming
status (proved below), so we fix the status at `Syncing`. -/
def bisyncOutcome (env : BisyncEnv) : Except String Unit :=
  (run_bisync env SyncStatus.Syncing).result

/-- The activity entry `sync_all` records for one target. -/
def entryFor (ts : Nat) (action : String) (r : Except String Unit) :
    ActivityEntry :=
  ⟨ts, action, "", tagFor r, detFor r⟩

/-- The first encountered failure message, personal before shared
(`personal_result.err().or(shared_result.err()).unwrap_or_default()`). -/
def firstErrMsg : Except String Unit → Except String Unit → String
  | Except.error e, _ => e
  | Except.ok _, Except.error e => e
  | Except.ok _, Except.ok _ => ""

/-! ## Concrete inputs for witnesses and counterexamples -/

/-- A complete configuration. -/
def cfg0 : AppConfig :=
  ⟨"https://docs.example.com", "user@example.com", "/tmp/p", "/tmp/s"⟩

/-- A sidecar invocation that succeeds with stdout `obstok`. -/
def toolOk : ToolEnv := ⟨Except.ok (), Except.ok ⟨true, some 0, "obstok", ""⟩⟩

/-- A per-target environment whose rclone run succeeds (first run). -/
def benvOk : BisyncEnv := ⟨false, toolOk, true⟩

/-- A per-target environment whose rclone run fails with a conflict-classified
stderr text. -/
def benvConflict : BisyncEnv :=
  ⟨false, ⟨Except.ok (), Except.ok ⟨false, some 1, "", "CONFLICT: path"⟩⟩, true⟩

/-- A per-target environment whose rclone run fails with a plain error. -/
def benvFail : BisyncEnv :=
  ⟨false, ⟨Except.ok (), Except.ok ⟨false, some 1, "", "connection refused"⟩⟩, true⟩

/-- A per-target environment whose rclone run fails with a mixed-case
`Conflict` in stderr. -/
def benvMixed : BisyncEnv :=
  ⟨true, ⟨Except.ok (), Except.ok ⟨false, some 1, "", "Conflict detected"⟩⟩, true⟩

/-- A first-run per-target environment whose rclone run fails. -/
def envFirstFail : BisyncEnv :=
  ⟨false, ⟨Except.ok (), Except.ok ⟨false, some 1, "", "boom"⟩⟩, true⟩

/-- A `sync_all` environment: personal target hits a conflict, shared target
succeeds. -/
def envConflict : SyncAllEnv :=
  ⟨Except.ok (), Except.ok (), toolOk, benvConflict, benvOk, 1, 2⟩

/-- A `sync_all` environment: personal target fails plainly, shared target
succeeds. -/
def envPlainFail : SyncAllEnv :=
  ⟨Except.ok (), Except.ok (), toolOk, benvFail, benvOk, 1, 2⟩

/-- A `sync_all` environment where the obscure invocation fails to spawn. -/
def envObsFail : SyncAllEnv :=
  ⟨Except.ok (), Except.ok (), ⟨Except.ok (), Except.error "spawn failed"⟩,
   benvOk, benvOk, 1, 2⟩

/-- A `sync_all` environment where creating the personal directory fails. -/
def envDirFail : SyncAllEnv :=
  ⟨Except.error "Permission denied", Except.ok (), toolOk, benvOk, benvOk, 1, 2⟩

/-- A `sync_all` environment: personal target succeeds, shared target hits a
conflict. -/
def envShConflict : SyncAllEnv :=
  ⟨Except.ok (), Except.ok (), toolOk, benvOk, benvConflict, 1, 2⟩

/-- A `sync_all` environment where creating the shared directory fails. -/
def envShDirFail : SyncAllEnv :=
  ⟨Except.ok (), Except.error "disk full", toolOk, benvOk, benvOk, 1, 2⟩

/-! ## Helper lemmas -/

theorem aggStatus_of_fail (r1 r2 : Except String Unit)
    (h : (∃ e, r1 = Except.error e) ∨ (∃ e, r2 = Except.error e)) :
    aggStatus r1 r2 = SyncStatus.Error (firstErrMsg r1 r2) := by
  cases r1 with
  | error e1 =>
    cases r2 with
    | error e2 => rfl
    | ok u2 => rfl
  | ok u1 =>
    cases r2 with
    | error e2 => rfl
    | ok u2 => rcases h with ⟨e, he⟩ | ⟨e, he⟩ <;> exact Except.noConfusion he

theorem run_bisync_result (env : BisyncEnv) (st : SyncStatus) :
    (run_bisync env st).result = bisyncOutcome env := by
  obtain ⟨mp, ⟨sc, run⟩, mw⟩ := env
  unfold bisyncOutcome run_bisync
  cases sc with
  | error e => rfl
  | ok u =>
    cases run with
    | error e => rfl
    | ok o => by_cases h : o.success <;> simp [h]

theorem log_activity_append (l : List ActivityEntry) (ts : Nat)
    (a f st : String) (d : Option String) (h : l.length ≤ 999) :
    log_activity l ts a f st d = l ++ [⟨ts, a, f, st, d⟩] := by
  unfold log_activity
  rw [if_neg]
  simp only [List.length_append, List.length_cons, List.length_nil]
  omega

theorem run_bisync_fail (benv : BisyncEnv) (st : SyncStatus) (o : ProcOutput)
    (hsc : benv.tool.sidecar = Except.ok ())
    (hrun : benv.tool.run = Except.ok o)
    (hfl : o.success = false) :
    run_bisync benv st =
      ⟨Except.error (errTextOf o),
       if isConflictText (errTextOf o) then SyncStatus.Conflict else st,
       benv.markerPresent,
       if benv.markerPresent then RunMode.recover else RunMode.resync⟩ := by
  obtain ⟨mp, ⟨sc, run⟩, mw⟩ := benv
  dsimp only at hsc hrun ⊢
  subst hsc
  subst hrun
  cases mp <;> simp [run_bisync, hfl]

theorem sync_all_run (cfg : AppConfig) (env : SyncAllEnv) (s : EngineState)
    (hcfg : cfg.is_configured = true)
    (hm1 : env.mkdirPersonal = Except.ok ())
    (hm2 : env.mkdirShared = Except.ok ())
    (tok : String) (hob : obscure_password env.obscure = Except.ok tok) :
    sync_all cfg env s =
      ⟨Except.ok (),
       ⟨aggStatus (bisyncOutcome env.personal) (bisyncOutcome env.shared),
        log_activity
          (log_activity s.activity_log env.ts1 "sync_personal" ""
            (tagFor (bisyncOutcome env.personal))
            (detFor (bisyncOutcome env.personal)))
          env.ts2 "sync_shared" ""
          (tagFor (bisyncOutcome env.shared))
          (detFor (bisyncOutcome env.shared))⟩,
       [Effect.createDir cfg.personal_sync_path,
        Effect.createDir cfg.shared_sync_path,
        Effect.toolObscure,
        Effect.bisyncRun "personal",
        Effect.logAppend "sync_personal" (tagFor (bisyncOutcome env.personal)),
        Effect.bisyncRun "shared",
        Effect.logAppend "sync_shared" (tagFor (bisyncOutcome env.shared))]⟩ := by
  simp [sync_all, hcfg, hm1, hm2, hob, run_bisync_result]

/-! ## Claim theorems -/

/-- C6: after every append to the activity log, the length never exceeds 1000,
and the retained entries are exactly the most recent 1000 of the appended
sequence in their original order (the log drops the oldest entries first). -/
theorem C6_confirmed (l : List ActivityEntry) (ts : Nat)
    (a f st : String) (d : Option String) :
    (log_activity l ts a f st d).length ≤ 1000 ∧
    log_activity l ts a f st d =
      (l ++ [(⟨ts, a, f, st, d⟩ : ActivityEntry)]).drop ((l.length + 1) - 1000) := by
  simp only [log_activity]
  constructor
  · split
    · simp only [List.length_drop]
      omega
    · simp only [List.length_append, List.length_cons, List.length_nil] at *
      omega
  · split
    · simp only [List.length_append, List.length_cons, List.length_nil]
    · have hz : l.length + 1 - 1000 = 0 := by
        simp only [List.length_append, List.length_cons, List.length_nil] at *
        omega
      rw [hz, List.drop_zero]

/-- C9: `get_activity limit` returns the suffix of the log of length at most
`limit`: the most recent entries in original order, the whole log when the
limit covers it, and nothing when the limit is zero. -/
theorem C9_confirmed (l : List ActivityEntry) (n : Nat) :
    (get_activity l n).length ≤ n ∧
    get_activity l n = l.drop (l.length - n) ∧
    l.take (l.length - n) ++ get_activity l n = l ∧
    (n = 0 → get_activity l n = []) ∧
    (l.length ≤ n → get_activity l n = l) := by
  have key : get_activity l n = l.drop (l.length - n) := by
    unfold get_activity
    split
    · rfl
    · have : l.length - n = 0 := by omega
      rw [this, List.drop_zero]
  refine ⟨?_, key, ?_, ?_, ?_⟩
  · rw [key]
    simp only [List.length_drop]
    omega
  · rw [key]
    exact List.take_append_drop _ l
  · intro hn
    rw [key, hn, Nat.sub_zero, List.drop_length]
  · intro hll
    have : l.length - n = 0 := by omega
    rw [key, this, List.drop_zero]

/-- Witness for C9: on a three-entry log, a limit of 2 yields the two most
recent entries in order, and a limit of 0 yields the empty sequence. -/
theorem C9_witness :
    get_activity
      [⟨1, "sync_personal", "", "success", none⟩,
       ⟨2, "sync_shared", "", "success", none⟩,
       ⟨3, "sync_personal", "", "error", some "x"⟩] 2 =
      [⟨2, "sync_shared", "", "success", none⟩,
       ⟨3, "sync_personal", "", "error", some "x"⟩] ∧
    get_activity [(⟨1, "sync_personal", "", "success", none⟩ : ActivityEntry)] 0 = [] := by
  have h3 := C9_confirmed
    [⟨1, "sync_personal", "", "success", none⟩,
     ⟨2, "sync_shared", "", "success", none⟩,
     ⟨3, "sync_personal", "", "error", some "x"⟩] 2
  have h0 := C9_confirmed [(⟨1, "sync_personal", "", "success", none⟩ : ActivityEntry)] 0
  refine ⟨?_, h0.2.2.2.1 rfl⟩
  rw [h3.2.1]
  rfl

/-- C10: a freshly constructed engine reports `NotConfigured` and an empty
activity slice for every limit. -/
theorem C10_confirmed :
    get_status SyncEngine.new = SyncStatus.NotConfigured ∧
    ∀ n : Nat, get_activity (SyncEngine.new).activity_log n = [] := by
  refine ⟨rfl, ?_⟩
  intro n
  unfold get_activity SyncEngine.new
  simp

/-- C8: on a started watcher whose queued channel messages are filesystem
events, `has_changes` returns false on an empty queue; on a non-empty queue it
returns true, clears the whole queue, and an immediately following call
returns false. -/
theorem C8_confirmed (q : List WatchMsg)
    (hev : ∀ m ∈ q, ∃ k, m = WatchMsg.event k) :
    (q = [] → FileWatcher.has_changes ⟨some q⟩ = (false, ⟨some q⟩)) ∧
    (q ≠ [] →
      (FileWatcher.has_changes ⟨some q⟩).1 = true ∧
      (FileWatcher.has_changes ⟨some q⟩).2 = ⟨some []⟩ ∧
      (FileWatcher.has_changes (FileWatcher.has_changes ⟨some q⟩).2).1 = false) := by
  constructor
  · rintro rfl
    rfl
  · intro hne
    cases q with
    | nil => exact absurd rfl hne
    | cons m rest =>
      obtain ⟨k, rfl⟩ := hev m (List.mem_cons_self m rest)
      exact ⟨rfl, rfl, rfl⟩

/-- Mapping a character function preserves list prefixes. -/
theorem listIsPre_map (f : Char → Char) :
    ∀ p s, listIsPre p s = true → listIsPre (p.map f) (s.map f) = true := by
  intro p
  induction p with
  | nil =>
    intro s _
    rfl
  | cons a ps ih =>
    intro s hp
    cases s with
    | nil => exact absurd hp (by simp [listIsPre])
    | cons c cs =>
      simp only [listIsPre, Bool.and_eq_true, beq_iff_eq] at hp
      obtain ⟨rfl, h2⟩ := hp
      simp only [List.map_cons, listIsPre, Bool.and_eq_true, beq_iff_eq]
      exact ⟨trivial, ih cs h2⟩

/-- Mapping a character function preserves substring occurrence. -/
theorem listSub_map (f : Char → Char) :
    ∀ p s, listSub p s = true → listSub (p.map f) (s.map f) = true := by
  intro p s
  induction s with
  | nil =>
    intro h
    cases p with
    | nil => rfl
    | cons a ps => exact absurd h (by simp [listSub, List.isEmpty])
  | cons c cs ih =>
    intro h
    simp only [listSub, Bool.or_eq_true] at h ⊢
    rcases h with h | h
    · exact Or.inl (listIsPre_map f p (c :: cs) h)
    · exact Or.inr (ih h)

/-- The code's case-sensitive conflict classifier is sound for the spec's
case-insensitive one. -/
theorem isConflict_imp_spec (e : String) :
    isConflictText e = true → specConflictIndicator e = true := by
  intro h
  simp only [isConflictText, Bool.or_eq_true, strContains] at h
  simp only [specConflictIndicator, strContains, strToLower]
  rcases h with h | h
  · have hmap := listSub_map Char.toLower _ _ h
    have heq : ("CONFLICT".data.map Char.toLower) = "conflict".data := by decide
    rw [heq] at hmap
    exact hmap
  · have hmap := listSub_map Char.toLower _ _ h
    have heq : ("conflict".data.map Char.toLower) = "conflict".data := by decide
    rw [heq] at hmap
    exact hmap

/-- C7: the run mode is resync exactly when the marker is absent; the marker
becomes present only through a successful first-run invocation; a failed run
leaves the marker unchanged, so a failed first run is retried as first-run
(resync); and a marker-present (incremental) run keeps the marker and the
recover mode. -/
theorem C7_confirmed (env : BisyncEnv) (st : SyncStatus) :
    ((run_bisync env st).mode =
      if env.markerPresent then RunMode.recover else RunMode.resync) ∧
    (env.markerPresent = false → (run_bisync env st).markerAfter = true →
      env.markerWriteOk = true ∧ (run_bisync env st).result = Except.ok ()) ∧
    (∀ e, (run_bisync env st).result = Except.error e →
      (run_bisync env st).markerAfter = env.markerPresent) ∧
    (env.markerPresent = false → ∀ e,
      (run_bisync env st).result = Except.error e →
      (run_bisync
        { env with markerPresent := (run_bisync env st).markerAfter } st).mode =
          RunMode.resync) ∧
    (env.markerPresent = true →
      (run_bisync env st).markerAfter = true ∧
      (run_bisync env st).mode = RunMode.recover) := by
  obtain ⟨mp, ⟨sc, run⟩, mw⟩ := env
  cases sc with
  | error e => cases mp <;> simp [run_bisync]
  | ok u =>
    cases run with
    | error e => cases mp <;> simp [run_bisync]
    | ok o =>
      cases mp <;> by_cases h : o.success <;> simp [run_bisync, h]

/-- Witness for C7: a failed first run leaves the marker absent and the next
invocation is resync again. -/
theorem C7_witness :
    (run_bisync envFirstFail SyncStatus.Syncing).markerAfter = false ∧
    (run_bisync
      { envFirstFail with
          markerPresent := (run_bisync envFirstFail SyncStatus.Syncing).markerAfter }
      SyncStatus.Syncing).mode = RunMode.resync := by
  have h := C7_confirmed envFirstFail SyncStatus.Syncing
  exact ⟨(h.2.2.1 "boom" rfl).trans rfl, h.2.2.2.1 rfl "boom" rfl⟩

/-- C4 counterexample: a failed run whose stderr is the mixed-case text
`Conflict detected` matches the spec's case-insensitive rule but is not
classified by the code — the status is left at `Syncing`. -/
theorem C4_counterexample :
    (run_bisync benvMixed SyncStatus.Syncing).result =
      Except.error "Conflict detected" ∧
    (run_bisync benvMixed SyncStatus.Syncing).status ≠ SyncStatus.Conflict ∧
    specConflictIndicator "Conflict detected" = true := by
  refine ⟨rfl, by decide, by decide⟩

/-- C4 amended: for a run that executed and exited non-zero, the status is set
to `Conflict` if and only if the error text contains `CONFLICT` or `conflict`
as a case-sensitive substring; this classifier is strictly stronger than the
claimed case-insensitive match, which it implies but does not coincide with. -/
theorem C4_amended (env : BisyncEnv) (st : SyncStatus) (o : ProcOutput)
    (hsc : env.tool.sidecar = Except.ok ()) (hrun : env.tool.run = Except.ok o)
    (hfail : o.success = false) (hst : st ≠ SyncStatus.Conflict) :
    (run_bisync env st).result = Except.error (errTextOf o) ∧
    ((run_bisync env st).status = SyncStatus.Conflict ↔
      isConflictText (errTextOf o) = true) ∧
    (isConflictText (errTextOf o) = true →
      specConflictIndicator (errTextOf o) = true) := by
  obtain ⟨mp, ⟨sc, run⟩, mw⟩ := env
  dsimp only at hsc hrun
  subst hsc
  subst hrun
  refine ⟨?_, ?_, isConflict_imp_spec _⟩
  · simp [run_bisync, hfail]
  · simp only [run_bisync, hfail]
    by_cases hc : isConflictText (errTextOf o) = true <;> simp [hc, hst]

/-- Witness for C4 amended: an upper-case `CONFLICT` in stderr is classified
and sets the status to `Conflict`. -/
theorem C4_witness :
    (run_bisync benvConflict SyncStatus.Syncing).status = SyncStatus.Conflict ∧
    (run_bisync benvConflict SyncStatus.Syncing).result =
      Except.error "CONFLICT: path" := by
  have h := C4_amended benvConflict SyncStatus.Syncing
    ⟨false, some 1, "", "CONFLICT: path"⟩ rfl rfl rfl (by decide)
  exact ⟨(h.2.1).mpr (by decide), h.1⟩

/-- C1 counterexample: the personal target fails with a conflict-classified
text, yet after `sync_all` completes the status is `Error`, not `Conflict` —
the aggregation step overwrites the conflict status. -/
theorem C1_counterexample :
    (run_bisync envConflict.personal SyncStatus.Syncing).result =
      Except.error "CONFLICT: path" ∧
    (run_bisync envConflict.personal SyncStatus.Syncing).status =
      SyncStatus.Conflict ∧
    (sync_all cfg0 envConflict SyncEngine.new).state.status =
      SyncStatus.Error "CONFLICT: path" ∧
    (sync_all cfg0 envConflict SyncEngine.new).state.status ≠
      SyncStatus.Conflict := by
  exact ⟨rfl, by decide, by decide, by decide⟩

/-- C1 amended: when either target's invocation fails with a
conflict-classified error text, `run_bisync` sets the shared status to
`Conflict` at that moment (whatever the slot held), but the aggregation at
the end of `sync_all` unconditionally overwrites it: the status observed
after `sync_all` completes is `Error` carrying the first encountered failure
message, never `Conflict` — `Conflict` is observable only before the
aggregation. -/
theorem C1_amended (cfg : AppConfig) (env : SyncAllEnv) (s : EngineState)
    (hcfg : cfg.is_configured = true)
    (hm1 : env.mkdirPersonal = Except.ok ())
    (hm2 : env.mkdirShared = Except.ok ())
    (tok : String) (hob : obscure_password env.obscure = Except.ok tok)
    (o : ProcOutput)
    (hfl : o.success = false)
    (hconf : isConflictText (errTextOf o) = true) :
    (env.personal.tool.sidecar = Except.ok () →
      env.personal.tool.run = Except.ok o →
      (∀ st, (run_bisync env.personal st).status = SyncStatus.Conflict) ∧
      (sync_all cfg env s).ret = Except.ok () ∧
      (sync_all cfg env s).state.status = SyncStatus.Error (errTextOf o) ∧
      (sync_all cfg env s).state.status ≠ SyncStatus.Conflict) ∧
    (env.shared.tool.sidecar = Except.ok () →
      env.shared.tool.run = Except.ok o →
      (∀ st, (run_bisync env.shared st).status = SyncStatus.Conflict) ∧
      (sync_all cfg env s).ret = Except.ok () ∧
      (sync_all cfg env s).state.status =
        SyncStatus.Error
          (firstErrMsg (bisyncOutcome env.personal) (bisyncOutcome env.shared)) ∧
      (sync_all cfg env s).state.status ≠ SyncStatus.Conflict) := by
  constructor
  · intro hsc hrun
    have hb : ∀ st, run_bisync env.personal st =
        ⟨Except.error (errTextOf o),
         if isConflictText (errTextOf o) then SyncStatus.Conflict else st,
         env.personal.markerPresent,
         if env.personal.markerPresent then RunMode.recover else RunMode.resync⟩ :=
      fun st => run_bisync_fail env.personal st o hsc hrun hfl
    have hout : bisyncOutcome env.personal = Except.error (errTextOf o) := by
      rw [bisyncOutcome, hb SyncStatus.Syncing]
    have hstat : (sync_all cfg env s).state.status = SyncStatus.Error (errTextOf o) := by
      rw [sync_all_run cfg env s hcfg hm1 hm2 tok hob]
      dsimp only
      rw [hout]
      cases hs : bisyncOutcome env.shared with
      | error e2 => rfl
      | ok u => rfl
    refine ⟨fun st => by rw [hb st]; simp [hconf], ?_, hstat, ?_⟩
    · rw [sync_all_run cfg env s hcfg hm1 hm2 tok hob]
    · rw [hstat]
      simp
  · intro hsc hrun
    have hb : ∀ st, run_bisync env.shared st =
        ⟨Except.error (errTextOf o),
         if isConflictText (errTextOf o) then SyncStatus.Conflict else st,
         env.shared.markerPresent,
         if env.shared.markerPresent then RunMode.recover else RunMode.resync⟩ :=
      fun st => run_bisync_fail env.shared st o hsc hrun hfl
    have hout : bisyncOutcome env.shared = Except.error (errTextOf o) := by
      rw [bisyncOutcome, hb SyncStatus.Syncing]
    have hstat : (sync_all cfg env s).state.status =
        SyncStatus.Error
          (firstErrMsg (bisyncOutcome env.personal) (bisyncOutcome env.shared)) := by
      rw [sync_all_run cfg env s hcfg hm1 hm2 tok hob]
      dsimp only
      exact aggStatus_of_fail _ _ (Or.inr ⟨errTextOf o, hout⟩)
    refine ⟨fun st => by rw [hb st]; simp [hconf], ?_, hstat, ?_⟩
    · rw [sync_all_run cfg env s hcfg hm1 hm2 tok hob]
    · rw [hstat]
      simp

/-- Witness for C1 amended: a personal-side conflict and a shared-side
conflict both show the transient `Conflict` and the final `Error`. -/
theorem C1_witness :
    (run_bisync envConflict.personal SyncStatus.Syncing).status =
      SyncStatus.Conflict ∧
    (sync_all cfg0 envConflict SyncEngine.new).state.status =
      SyncStatus.Error "CONFLICT: path" ∧
    (run_bisync envShConflict.shared SyncStatus.Idle).status =
      SyncStatus.Conflict ∧
    (sync_all cfg0 envShConflict SyncEngine.new).state.status =
      SyncStatus.Error "CONFLICT: path" := by
  have h1 := (C1_amended cfg0 envConflict SyncEngine.new rfl rfl rfl "obstok" rfl
    ⟨false, some 1, "", "CONFLICT: path"⟩ rfl (by decide)).1 rfl rfl
  have h2 := (C1_amended cfg0 envShConflict SyncEngine.new rfl rfl rfl "obstok" rfl
    ⟨false, some 1, "", "CONFLICT: path"⟩ rfl (by decide)).2 rfl rfl
  exact ⟨h1.1 SyncStatus.Syncing, h1.2.2.1, h2.1 SyncStatus.Idle, h2.2.2.1⟩

/-- C2 counterexample: the obscure invocation fails and `sync_all` aborts, but
both local directories were already created before the obscure step — the
claim that no directory is created is false. -/
theorem C2_counterexample :
    (sync_all cfg0 envObsFail SyncEngine.new).ret =
      Except.error "Failed to obscure password: spawn failed" ∧
    Effect.createDir "/tmp/p" ∈ (sync_all cfg0 envObsFail SyncEngine.new).trace ∧
    Effect.createDir "/tmp/s" ∈ (sync_all cfg0 envObsFail SyncEngine.new).trace := by
  exact ⟨rfl, by decide, by decide⟩

/-- C2 amended: an obscure failure aborts `sync_all` with that error after the
two local directories have been created but before any per-target sync-tool
invocation, and no activity entry is appended. -/
theorem C2_amended (cfg : AppConfig) (env : SyncAllEnv) (s : EngineState)
    (hcfg : cfg.is_configured = true)
    (hm1 : env.mkdirPersonal = Except.ok ())
    (hm2 : env.mkdirShared = Except.ok ())
    (e : String) (hob : obscure_password env.obscure = Except.error e) :
    (sync_all cfg env s).ret = Except.error e ∧
    (sync_all cfg env s).trace =
      [Effect.createDir cfg.personal_sync_path,
       Effect.createDir cfg.shared_sync_path,
       Effect.toolObscure] ∧
    (sync_all cfg env s).state.activity_log = s.activity_log ∧
    (∀ t, Effect.bisyncRun t ∉ (sync_all cfg env s).trace) ∧
    (∀ a b, Effect.logAppend a b ∉ (sync_all cfg env s).trace) := by
  have hs : sync_all cfg env s =
      ⟨Except.error e, { s with status := SyncStatus.Syncing },
       [Effect.createDir cfg.personal_sync_path,
        Effect.createDir cfg.shared_sync_path,
        Effect.toolObscure]⟩ := by
    simp [sync_all, hcfg, hm1, hm2, hob]
  rw [hs]
  refine ⟨rfl, rfl, rfl, ?_, ?_⟩
  · intro t
    simp
  · intro a b
    simp

/-- Witness for C2 amended: in the obscure-failure scenario the log stays
empty and no per-target invocation appears in the trace. -/
theorem C2_witness :
    (sync_all cfg0 envObsFail SyncEngine.new).state.activity_log = [] ∧
    Effect.bisyncRun "personal" ∉ (sync_all cfg0 envObsFail SyncEngine.new).trace := by
  have h := C2_amended cfg0 envObsFail SyncEngine.new rfl rfl rfl
    "Failed to obscure password: spawn failed" rfl
  exact ⟨h.2.2.1, h.2.2.2.1 "personal"⟩

/-- C3 counterexample: a failure to create the personal directory is returned
through the error channel of `sync_all` itself, with no per-target handling
and no activity entries — the claim that directory-creation failure is fatal
for that target only is false. -/
theorem C3_counterexample :
    (sync_all cfg0 envDirFail SyncEngine.new).ret =
      Except.error "Cannot create personal dir: Permission denied" ∧
    (sync_all cfg0 envDirFail SyncEngine.new).state.activity_log = [] ∧
    (sync_all cfg0 envDirFail SyncEngine.new).trace = [] := by
  exact ⟨rfl, rfl, rfl⟩

/-- C3 amended: once both directories are created and the credential is
obscured, `sync_all` returns success regardless of the per-target outcomes;
but a failure to create either target's directory aborts the whole call
through its own error return, leaving the log untouched and running no
sync-tool invocation (only the personal directory was created when the
shared one fails). -/
theorem C3_amended (cfg : AppConfig) (env : SyncAllEnv) (s : EngineState)
    (hcfg : cfg.is_configured = true) :
    (∀ tok, env.mkdirPersonal = Except.ok () → env.mkdirShared = Except.ok () →
      obscure_password env.obscure = Except.ok tok →
      (sync_all cfg env s).ret = Except.ok ()) ∧
    (∀ e, env.mkdirPersonal = Except.error e →
      (sync_all cfg env s).ret = Except.error ("Cannot create personal dir: " ++ e) ∧
      (sync_all cfg env s).state.activity_log = s.activity_log ∧
      (sync_all cfg env s).trace = []) ∧
    (∀ e, env.mkdirPersonal = Except.ok () → env.mkdirShared = Except.error e →
      (sync_all cfg env s).ret = Except.error ("Cannot create shared dir: " ++ e) ∧
      (sync_all cfg env s).state.activity_log = s.activity_log ∧
      (sync_all cfg env s).trace = [Effect.createDir cfg.personal_sync_path]) := by
  refine ⟨?_, ?_, ?_⟩
  · intro tok hm1 hm2 hob
    rw [sync_all_run cfg env s hcfg hm1 hm2 tok hob]
  · intro e hm1
    have hs : sync_all cfg env s =
        ⟨Except.error ("Cannot create personal dir: " ++ e),
         { s with status := SyncStatus.Syncing }, []⟩ := by
      simp [sync_all, hcfg, hm1]
    rw [hs]
    exact ⟨rfl, rfl, rfl⟩
  · intro e hm1 hm2
    have hs : sync_all cfg env s =
        ⟨Except.error ("Cannot create shared dir: " ++ e),
         { s with status := SyncStatus.Syncing },
         [Effect.createDir cfg.personal_sync_path]⟩ := by
      simp [sync_all, hcfg, hm1, hm2]
    rw [hs]
    exact ⟨rfl, rfl, rfl⟩

/-- Witness for C3 amended: `sync_all` returns success even though the
personal target failed, and either directory-creation failure surfaces
through the error return. -/
theorem C3_witness :
    (sync_all cfg0 envConflict SyncEngine.new).ret = Except.ok () ∧
    (sync_all cfg0 envDirFail SyncEngine.new).ret =
      Except.error "Cannot create personal dir: Permission denied" ∧
    (sync_all cfg0 envShDirFail SyncEngine.new).ret =
      Except.error "Cannot create shared dir: disk full" := by
  have h1 := (C3_amended cfg0 envConflict SyncEngine.new rfl).1 "obstok" rfl rfl rfl
  have h2 := (C3_amended cfg0 envDirFail SyncEngine.new rfl).2.1 "Permission denied" rfl
  have h3 := (C3_amended cfg0 envShDirFail SyncEngine.new rfl).2.2 "disk full" rfl rfl
  exact ⟨h1, h2.1, h3.1⟩

/-- C5: with directories created and the credential obscured, if at least one
target fails with a non-conflict error then the final status is `Error`
carrying the first encountered failure message (personal before shared), and
exactly two activity entries are appended, one per target, tagged by that
target's outcome. -/
theorem C5_confirmed (cfg : AppConfig) (env : SyncAllEnv) (s : EngineState)
    (hcfg : cfg.is_configured = true)
    (hm1 : env.mkdirPersonal = Except.ok ())
    (hm2 : env.mkdirShared = Except.ok ())
    (tok : String) (hob : obscure_password env.obscure = Except.ok tok)
    (hlen : s.activity_log.length ≤ 998)
    (hfail :
      (∃ e, bisyncOutcome env.personal = Except.error e ∧ isConflictText e = false) ∨
      (∃ e, bisyncOutcome env.shared = Except.error e ∧ isConflictText e = false)) :
    (sync_all cfg env s).state.status =
      SyncStatus.Error
        (firstErrMsg (bisyncOutcome env.personal) (bisyncOutcome env.shared)) ∧
    (∀ e1, bisyncOutcome env.personal = Except.error e1 →
      firstErrMsg (bisyncOutcome env.personal) (bisyncOutcome env.shared) = e1) ∧
    (∀ u e2, bisyncOutcome env.personal = Except.ok u →
      bisyncOutcome env.shared = Except.error e2 →
      firstErrMsg (bisyncOutcome env.personal) (bisyncOutcome env.shared) = e2) ∧
    (sync_all cfg env s).state.activity_log =
      s.activity_log ++
        [entryFor env.ts1 "sync_personal" (bisyncOutcome env.personal),
         entryFor env.ts2 "sync_shared" (bisyncOutcome env.shared)] := by
  rw [sync_all_run cfg env s hcfg hm1 hm2 tok hob]
  have hlog1 : s.activity_log.length ≤ 999 := by omega
  have hlog2 :
      (s.activity_log ++
        [entryFor env.ts1 "sync_personal" (bisyncOutcome env.personal)]).length ≤ 999 := by
    simp only [List.length_append, List.length_cons, List.length_nil]
    omega
  cases hp : bisyncOutcome env.personal with
  | error e1 =>
    cases hs : bisyncOutcome env.shared with
    | error e2 =>
      refine ⟨rfl, ?_, ?_, ?_⟩
      · intro x hx
        injection hx
      · intro u x hu
        exact fun _ => Except.noConfusion hu
      · rw [log_activity_append _ _ _ _ _ _ hlog1]
        rw [log_activity_append _ _ _ _ _ _ (by rw [hp] at hlog2; exact hlog2)]
        simp [entryFor, List.append_assoc]
    | ok u2 =>
      refine ⟨rfl, ?_, ?_, ?_⟩
      · intro x hx
        injection hx
      · intro u x hu
        exact fun _ => Except.noConfusion hu
      · rw [log_activity_append _ _ _ _ _ _ hlog1]
        rw [log_activity_append _ _ _ _ _ _ (by rw [hp] at hlog2; exact hlog2)]
        simp [entryFor, List.append_assoc]
  | ok u1 =>
    cases hs : bisyncOutcome env.shared with
    | error e2 =>
      cases u1
      refine ⟨rfl, ?_, ?_, ?_⟩
      · intro x hx
        exact Except.noConfusion hx
      · intro u x hu hx
        injection hx
      · rw [log_activity_append _ _ _ _ _ _ hlog1]
        rw [log_activity_append _ _ _ _ _ _ (by rw [hp] at hlog2; exact hlog2)]
        simp [entryFor, List.append_assoc]
    | ok u2 =>
      exfalso
      rcases hfail with ⟨e, he, _⟩ | ⟨e, he, _⟩
      · rw [hp] at he
        simp at he
      · rw [hs] at he
        simp at he

/-- Witness for C5: personal fails plainly, shared succeeds — final status is
`Error connection refused` and the log holds one error and one success
entry. -/
theorem C5_witness :
    (sync_all cfg0 envPlainFail SyncEngine.new).state.status =
      SyncStatus.Error "connection refused" ∧
    (sync_all cfg0 envPlainFail SyncEngine.new).state.activity_log =
      [⟨1, "sync_personal", "", "error", some "connection refused"⟩,
       ⟨2, "sync_shared", "", "success", none⟩] := by
  have h := C5_confirmed cfg0 envPlainFail SyncEngine.new rfl rfl rfl "obstok" rfl
    (by decide) (Or.inl ⟨"connection refused", rfl, by decide⟩)
  exact ⟨h.1, h.2.2.2⟩

/-- Witness for C8: a queue holding one modification event yields true, then
false. -/
theorem C8_witness :
    (FileWatcher.has_changes ⟨some [WatchMsg.event "Modify"]⟩).1 = true ∧
    (FileWatcher.has_changes
      (FileWatcher.has_changes ⟨some [WatchMsg.event "Modify"]⟩).2).1 = false := by
  have hev : ∀ m ∈ [WatchMsg.event "Modify"], ∃ k, m = WatchMsg.event k := by
    intro m hm
    rw [List.mem_singleton] at hm
    exact ⟨"Modify", hm⟩
  have h := (C8_confirmed [WatchMsg.event "Modify"] hev).2 (by simp)
  exact ⟨h.1, h.2.2⟩

end ReadyNextOsDrive
